import Mathlib

/-!
Verification of the build-service lifecycle core.

The embedding below translates the Go service (the HTTP handlers
`createBuildHandler`, `getBuildHandler`, `listBuildsHandler`, the background
task `processBuild`, and the persistence operations `GetBuild`, `ListBuilds`,
`UpdateBuildStatus`) into pure Lean functions.  Effects on the outside world
(persistence writes, Prometheus metric updates, log lines, spawned tasks) are
made explicit as fields of effect records; timestamps are abstract clock reads
(`Nat`), with each `time.Now()` call in the source modelled as its own read;
fallible persistence calls take their outcome (success or error) as an
explicit argument, standing for the database's behaviour on that call.
-/

namespace BuildService

/-- Build record, mirroring the Go struct `BuildRequest` (id, project_name,
git_url, branch, status, created_at, updated_at).  Timestamps are abstract
clock values; status is the literal string stored by the service. -/
structure Build where
  id : Nat
  projectName : String
  gitURL : String
  branch : String
  status : String
  createdAt : Nat
  updatedAt : Nat
deriving DecidableEq, Repr

/-- A status string is terminal exactly when it is "success" or "failed". -/
def isTerminal (s : String) : Bool :=
  s == "success" || s == "failed"

/-- Position of a status in the lifecycle `queued → running → terminal`. -/
def statusRank (s : String) : Nat :=
  if s == "queued" then 0
  else if s == "running" then 1
  else 2

/-- Terminal outcome computed by `processBuild`:
`success := len(build.ProjectName)%10 != 0`, else "failed". -/
def buildOutcome (projectName : String) : String :=
  if projectName.length % 10 != 0 then "success" else "failed"

/-- Observable effects of one run of the background task `processBuild`:
the `UpdateBuildStatus` calls it issues in order (status argument paired with
whether that persistence call succeeded), the `builds_total` counter labels it
increments, the `build_duration_seconds` histogram observations (project-name
labels), the number of `active_builds` gauge decrements, and the number of
error log lines. -/
structure ProcEffects where
  statusWrites : List (String × Bool)
  buildsTotalIncs : List String
  histogramObs : List String
  gaugeDecs : Nat
  errorLogs : Nat
deriving DecidableEq, Repr

/-- The background task `processBuild`.  `runningOk` is the outcome of the
`UpdateBuildStatus(id, "running")` call and `terminalOk` the outcome of the
terminal `UpdateBuildStatus` call.  The Go `defer` block (histogram
observation labelled by project name, gauge decrement) runs on every exit,
including the early `return` taken when the "running" write fails; the
terminal write and the `builds_total` increment are only reached when the
"running" write succeeded. -/
def processBuild (projectName : String) (runningOk terminalOk : Bool) : ProcEffects :=
  if runningOk then
    { statusWrites := [("running", true), (buildOutcome projectName, terminalOk)]
      buildsTotalIncs := [buildOutcome projectName]
      histogramObs := [projectName]
      gaugeDecs := 1
      errorLogs := if terminalOk then 0 else 1 }
  else
    { statusWrites := [("running", false)]
      buildsTotalIncs := []
      histogramObs := [projectName]
      gaugeDecs := 1
      errorLogs := 1 }

lemma buildOutcome_cases (p : String) :
    buildOutcome p = "success" ∨ buildOutcome p = "failed" := by
  unfold buildOutcome
  split
  · exact Or.inl rfl
  · exact Or.inr rfl

lemma isTerminal_buildOutcome (p : String) : isTerminal (buildOutcome p) = true := by
  rcases buildOutcome_cases p with h | h <;> rw [h] <;> decide

lemma statusRank_buildOutcome (p : String) : statusRank (buildOutcome p) = 2 := by
  rcases buildOutcome_cases p with h | h <;> rw [h] <;> decide

lemma buildOutcome_ne_queued (p : String) : buildOutcome p ≠ "queued" := by
  rcases buildOutcome_cases p with h | h <;> rw [h] <;> decide

lemma processBuild_true (p : String) (ok2 : Bool) :
    processBuild p true ok2 =
      { statusWrites := [("running", true), (buildOutcome p, ok2)]
        buildsTotalIncs := [buildOutcome p]
        histogramObs := [p]
        gaugeDecs := 1
        errorLogs := if ok2 then 0 else 1 } := rfl

lemma processBuild_false (p : String) (ok2 : Bool) :
    processBuild p false ok2 =
      { statusWrites := [("running", false)]
        buildsTotalIncs := []
        histogramObs := [p]
        gaugeDecs := 1
        errorLogs := 1 } := rfl

/-- C1: per build, the background task issues its status writes in strict
lifecycle order: the write sequence is strictly increasing in lifecycle rank
(so "running" precedes any terminal write and no write regresses to "queued"
or "running" after a terminal one), the first write (when any) is "running",
at most one terminal status is written, a terminal write occurs only if the
"running" write succeeded, and "queued" is never written. -/
theorem claim1_processBuild_write_order (p : String) (ok1 ok2 : Bool) :
    List.Chain' (fun a b => statusRank a.1 < statusRank b.1)
      (processBuild p ok1 ok2).statusWrites
    ∧ (∀ w, (processBuild p ok1 ok2).statusWrites.head? = some w → w.1 = "running")
    ∧ (processBuild p ok1 ok2).statusWrites.countP (fun w => isTerminal w.1) ≤ 1
    ∧ ((∃ w ∈ (processBuild p ok1 ok2).statusWrites, isTerminal w.1 = true) →
        ("running", true) ∈ (processBuild p ok1 ok2).statusWrites)
    ∧ (∀ w ∈ (processBuild p ok1 ok2).statusWrites, w.1 ≠ "queued") := by
  cases ok1 with
  | false =>
      rw [processBuild_false]
      refine ⟨List.chain'_singleton _, ?_, ?_, ?_, ?_⟩
      · intro w hw
        rw [Option.some_inj.mp hw.symm]
      · show List.countP (fun w => isTerminal w.1) [("running", false)] ≤ 1
        decide
      · intro h
        rcases h with ⟨w, hw, ht⟩
        rw [List.mem_singleton.mp hw] at ht
        exact absurd ht (by decide)
      · intro w hw
        rw [List.mem_singleton.mp hw]
        decide
  | true =>
      rw [processBuild_true]
      refine ⟨?_, ?_, ?_, ?_, ?_⟩
      · refine List.chain'_cons.mpr ⟨?_, List.chain'_singleton _⟩
        rw [statusRank_buildOutcome]
        decide
      · intro w hw
        rw [Option.some_inj.mp hw.symm]
      · rw [List.countP_cons, List.countP_cons]
        have h1 : isTerminal ("running", true).1 = false := by decide
        have h2 : isTerminal (buildOutcome p, ok2).1 = true := isTerminal_buildOutcome p
        simp [h1, h2]
      · intro _
        exact List.mem_cons_self _ _
      · intro w hw
        rcases List.mem_cons.mp hw with hw | hw
        · rw [hw]; decide
        · rw [List.mem_singleton.mp hw]
          simpa using buildOutcome_ne_queued p

/-- C2: every run of `processBuild` makes exactly one histogram observation,
labelled with the build's project name, and exactly one decrement of the
active-builds gauge, on every exit path — including the early return taken
when the "running" write fails. -/
theorem claim2_processBuild_exit_accounting (p : String) (ok1 ok2 : Bool) :
    (processBuild p ok1 ok2).histogramObs = [p]
    ∧ (processBuild p ok1 ok2).gaugeDecs = 1 := by
  cases ok1 with
  | false => rw [processBuild_false]; exact ⟨rfl, rfl⟩
  | true => rw [processBuild_true]; exact ⟨rfl, rfl⟩

/-- C3 counterexample: the claim says that after a persistence failure the
active-builds gauge is "permanently incremented (never decremented)" for that
build, i.e. the task performs zero gauge decrements.  But the deferred
cleanup block runs on the early return too: with project "demo" and a failing
"running" write the task still decrements the gauge once. -/
theorem claim3_counterexample :
    (processBuild "demo" false true).gaugeDecs ≠ 0 := by decide

/-- C3 amended: if the "running" persistence write fails, the task logs the
failure and terminates without retrying — it issues exactly that one (failed)
status write, no terminal write, and no counter increment, leaving the stored
status one step behind — but the deferred cleanup still runs: the duration is
observed once under the project label and the active-builds gauge is
decremented once, returning it to its pre-submission value. -/
theorem claim3_amended_early_return (p : String) (ok2 : Bool) :
    (processBuild p false ok2).statusWrites = [("running", false)]
    ∧ (processBuild p false ok2).errorLogs = 1
    ∧ (processBuild p false ok2).buildsTotalIncs = []
    ∧ (processBuild p false ok2).histogramObs = [p]
    ∧ (processBuild p false ok2).gaugeDecs = 1 := by
  rw [processBuild_false]
  exact ⟨rfl, rfl, rfl, rfl, rfl⟩

lemma buildOutcome_success_iff (p : String) :
    buildOutcome p = "success" ↔ p.length % 10 ≠ 0 := by
  unfold buildOutcome
  constructor
  · intro h
    by_contra hz
    rw [hz] at h
    exact absurd h (by decide)
  · intro h
    have : (p.length % 10 != 0) = true := by
      rw [bne_iff_ne]
      exact h
    rw [this]
    rfl

lemma buildOutcome_failed_iff (p : String) :
    buildOutcome p = "failed" ↔ p.length % 10 = 0 := by
  constructor
  · intro h
    by_contra hz
    have hs : buildOutcome p = "success" := (buildOutcome_success_iff p).mpr hz
    rw [h] at hs
    exact absurd hs (by decide)
  · intro h
    unfold buildOutcome
    have : (p.length % 10 != 0) = false := by
      rw [bne_eq_false_iff_eq]
      exact h
    rw [this]
    rfl

/-- C4: the terminal outcome the task writes is a pure function of the
project name's length: when the "running" write succeeds, the write sequence
ends with `buildOutcome p`, which is "success" exactly when the length of the
project name modulo 10 is non-zero and "failed" otherwise; two runs with the
same project name issue the same status sequence. -/
theorem claim4_outcome_deterministic (p : String) (ok2 ok3 : Bool) :
    (processBuild p true ok2).statusWrites.map Prod.fst = ["running", buildOutcome p]
    ∧ (buildOutcome p = "success" ↔ p.length % 10 ≠ 0)
    ∧ (buildOutcome p = "failed" ↔ p.length % 10 = 0)
    ∧ (processBuild p true ok2).statusWrites.map Prod.fst =
        (processBuild p true ok3).statusWrites.map Prod.fst := by
  rw [processBuild_true, processBuild_true]
  exact ⟨rfl, buildOutcome_success_iff p, buildOutcome_failed_iff p, rfl⟩

/-- Submission body as decoded from JSON into the Go `BuildRequest` struct: a
field missing from the JSON decodes to the empty string, so "missing" and
"empty" coincide after decoding. -/
structure CreateReq where
  projectName : String
  gitURL : String
  branch : String
deriving DecidableEq, Repr

/-- Outcome of the `CreateBuild` persistence call: the assigned identifier on
success, or an error. -/
inductive CreateDBResult where
  | ok (id : Nat)
  | err
deriving DecidableEq, Repr

/-- Observable effects of one run of `createBuildHandler`: the HTTP status
code written, the JSON body (the build record, on 201), the record handed to
the `CreateBuild` persistence call (`none` when the call was never made), the
`builds_total` labels incremented, the number of `active_builds` gauge
increments, and the number of background `processBuild` tasks spawned. -/
structure CreateEffects where
  httpStatus : Nat
  body : Option Build
  createdArg : Option Build
  buildsTotalIncs : List String
  gaugeIncs : Nat
  tasksStarted : Nat
deriving DecidableEq, Repr

/-- The create-build handler.  `decodeOk` is whether the JSON body decoded;
`dbRes` is the outcome of the `CreateBuild` persistence call; `t1` and `t2`
are the two successive `time.Now().UTC()` reads that become `CreatedAt` and
`UpdatedAt`.  Mirrors the source: decode failure or an empty project name or
git URL yields 400 before any persistence call; otherwise the branch defaults
to "main" when empty, the record is built with status "queued" and id 0 (Go
zero value) and handed to `CreateBuild`; on a persistence error the handler
responds 500 touching no metric and spawning no task; on success it sets the
assigned id, increments the "queued" counter and the gauge, responds 201 with
the record, and spawns one `processBuild` task. -/
def createBuildHandler (decodeOk : Bool) (req : CreateReq) (dbRes : CreateDBResult)
    (t1 t2 : Nat) : CreateEffects :=
  if !decodeOk then
    { httpStatus := 400, body := none, createdArg := none
      buildsTotalIncs := [], gaugeIncs := 0, tasksStarted := 0 }
  else if req.projectName == "" || req.gitURL == "" then
    { httpStatus := 400, body := none, createdArg := none
      buildsTotalIncs := [], gaugeIncs := 0, tasksStarted := 0 }
  else
    let b0 : Build :=
      { id := 0
        projectName := req.projectName
        gitURL := req.gitURL
        branch := if req.branch == "" then "main" else req.branch
        status := "queued"
        createdAt := t1
        updatedAt := t2 }
    match dbRes with
    | CreateDBResult.err =>
        { httpStatus := 500, body := none, createdArg := some b0
          buildsTotalIncs := [], gaugeIncs := 0, tasksStarted := 0 }
    | CreateDBResult.ok i =>
        { httpStatus := 201, body := some { b0 with id := i }, createdArg := some b0
          buildsTotalIncs := ["queued"], gaugeIncs := 1, tasksStarted := 1 }

/-- C5: a submission whose project name or git URL is empty (equivalently,
missing from the JSON) is answered with HTTP 400 and has no other effect: no
`CreateBuild` call is made, no metric changes, and no background task is
started. -/
theorem claim5_validation_rejects (req : CreateReq) (dbRes : CreateDBResult)
    (t1 t2 : Nat) (h : req.projectName = "" ∨ req.gitURL = "") :
    (createBuildHandler true req dbRes t1 t2).httpStatus = 400
    ∧ (createBuildHandler true req dbRes t1 t2).body = none
    ∧ (createBuildHandler true req dbRes t1 t2).createdArg = none
    ∧ (createBuildHandler true req dbRes t1 t2).buildsTotalIncs = []
    ∧ (createBuildHandler true req dbRes t1 t2).gaugeIncs = 0
    ∧ (createBuildHandler true req dbRes t1 t2).tasksStarted = 0 := by
  have hcond : (req.projectName == "" || req.gitURL == "") = true := by
    rcases h with h | h <;> rw [h] <;> simp
  unfold createBuildHandler
  rw [hcond]
  exact ⟨rfl, rfl, rfl, rfl, rfl, rfl⟩

/-- C5 witness: the empty-project-name submission is rejected with 400 and
zero persistence calls. -/
theorem claim5_validation_rejects_witness :
    (createBuildHandler true ⟨"", "https://x/y.git", ""⟩ CreateDBResult.err 0 0).httpStatus = 400
    ∧ (createBuildHandler true ⟨"", "https://x/y.git", ""⟩ CreateDBResult.err 0 0).body = none
    ∧ (createBuildHandler true ⟨"", "https://x/y.git", ""⟩ CreateDBResult.err 0 0).createdArg = none
    ∧ (createBuildHandler true ⟨"", "https://x/y.git", ""⟩ CreateDBResult.err 0 0).buildsTotalIncs = []
    ∧ (createBuildHandler true ⟨"", "https://x/y.git", ""⟩ CreateDBResult.err 0 0).gaugeIncs = 0
    ∧ (createBuildHandler true ⟨"", "https://x/y.git", ""⟩ CreateDBResult.err 0 0).tasksStarted = 0 :=
  claim5_validation_rejects ⟨"", "https://x/y.git", ""⟩ CreateDBResult.err 0 0 (Or.inl rfl)

/-- C6: a valid submission (non-empty project name and git URL) defaults the
branch to "main" when empty, hands `CreateBuild` a record with status
"queued" and the two clock reads as timestamps, and on persistence success
responds 201 with that record carrying the assigned identifier and spawns one
background task; on persistence failure it responds 500, changes no metric
and spawns no task. -/
theorem claim6_create_valid (req : CreateReq) (i t1 t2 : Nat)
    (hp : req.projectName ≠ "") (hg : req.gitURL ≠ "") :
    (createBuildHandler true req (CreateDBResult.ok i) t1 t2).httpStatus = 201
    ∧ (createBuildHandler true req (CreateDBResult.ok i) t1 t2).createdArg =
        some { id := 0, projectName := req.projectName, gitURL := req.gitURL
               branch := if req.branch = "" then "main" else req.branch
               status := "queued", createdAt := t1, updatedAt := t2 }
    ∧ (createBuildHandler true req (CreateDBResult.ok i) t1 t2).body =
        some { id := i, projectName := req.projectName, gitURL := req.gitURL
               branch := if req.branch = "" then "main" else req.branch
               status := "queued", createdAt := t1, updatedAt := t2 }
    ∧ (createBuildHandler true req (CreateDBResult.ok i) t1 t2).tasksStarted = 1
    ∧ (createBuildHandler true req (CreateDBResult.ok i) t1 t2).buildsTotalIncs = ["queued"]
    ∧ (createBuildHandler true req (CreateDBResult.ok i) t1 t2).gaugeIncs = 1
    ∧ (createBuildHandler true req CreateDBResult.err t1 t2).httpStatus = 500
    ∧ (createBuildHandler true req CreateDBResult.err t1 t2).body = none
    ∧ (createBuildHandler true req CreateDBResult.err t1 t2).buildsTotalIncs = []
    ∧ (createBuildHandler true req CreateDBResult.err t1 t2).gaugeIncs = 0
    ∧ (createBuildHandler true req CreateDBResult.err t1 t2).tasksStarted = 0 := by
  have hcond : (req.projectName == "" || req.gitURL == "") = false := by
    simp [hp, hg]
  simp [createBuildHandler, hcond]

/-- C6 witness: the scenario submission with empty branch, persistence
assigning identifier 7 and clock reads 0 and 1. -/
theorem claim6_create_valid_witness :
    (createBuildHandler true ⟨"demo", "https://x/y.git", ""⟩ (CreateDBResult.ok 7) 0 1).httpStatus = 201
    ∧ (createBuildHandler true ⟨"demo", "https://x/y.git", ""⟩ (CreateDBResult.ok 7) 0 1).createdArg =
        some { id := 0, projectName := "demo", gitURL := "https://x/y.git"
               branch := if ("" : String) = "" then "main" else ""
               status := "queued", createdAt := 0, updatedAt := 1 }
    ∧ (createBuildHandler true ⟨"demo", "https://x/y.git", ""⟩ (CreateDBResult.ok 7) 0 1).body =
        some { id := 7, projectName := "demo", gitURL := "https://x/y.git"
               branch := if ("" : String) = "" then "main" else ""
               status := "queued", createdAt := 0, updatedAt := 1 }
    ∧ (createBuildHandler true ⟨"demo", "https://x/y.git", ""⟩ (CreateDBResult.ok 7) 0 1).tasksStarted = 1
    ∧ (createBuildHandler true ⟨"demo", "https://x/y.git", ""⟩ (CreateDBResult.ok 7) 0 1).buildsTotalIncs = ["queued"]
    ∧ (createBuildHandler true ⟨"demo", "https://x/y.git", ""⟩ (CreateDBResult.ok 7) 0 1).gaugeIncs = 1
    ∧ (createBuildHandler true ⟨"demo", "https://x/y.git", ""⟩ CreateDBResult.err 0 1).httpStatus = 500
    ∧ (createBuildHandler true ⟨"demo", "https://x/y.git", ""⟩ CreateDBResult.err 0 1).body = none
    ∧ (createBuildHandler true ⟨"demo", "https://x/y.git", ""⟩ CreateDBResult.err 0 1).buildsTotalIncs = []
    ∧ (createBuildHandler true ⟨"demo", "https://x/y.git", ""⟩ CreateDBResult.err 0 1).gaugeIncs = 0
    ∧ (createBuildHandler true ⟨"demo", "https://x/y.git", ""⟩ CreateDBResult.err 0 1).tasksStarted = 0 :=
  claim6_create_valid ⟨"demo", "https://x/y.git", ""⟩ 7 0 1 (by decide) (by decide)

/-- C7 counterexample: the claim asserts the record in the 201 response always
has `createdAt = updatedAt`.  `CreatedAt` and `UpdatedAt` are two separate
successive `time.Now().UTC()` reads; with clock reads 0 then 1 (the clock
advancing between the two calls) the 201 response carries
`createdAt = 0 ≠ 1 = updatedAt`. -/
theorem claim7_counterexample :
    (createBuildHandler true ⟨"demo", "https://x/y.git", ""⟩ (CreateDBResult.ok 1) 0 1).httpStatus = 201
    ∧ (createBuildHandler true ⟨"demo", "https://x/y.git", ""⟩ (CreateDBResult.ok 1) 0 1).body.map Build.createdAt ≠
      (createBuildHandler true ⟨"demo", "https://x/y.git", ""⟩ (CreateDBResult.ok 1) 0 1).body.map Build.updatedAt := by
  exact ⟨rfl, by decide⟩

/-- Check that the response record's created timestamp is at most its updated
timestamp (vacuously true when there is no response record). -/
def bodyTimesMonotone (e : CreateEffects) : Bool :=
  match e.body with
  | some b => b.createdAt ≤ b.updatedAt
  | none => true

/-- C7 amended: for every valid submission the record in the 201 response has
`createdAt` equal to the first clock read and `updatedAt` equal to the second
clock read; since the two reads are successive reads of a monotone clock,
`createdAt ≤ updatedAt`, with equality exactly when the clock did not advance
between the two `time.Now()` calls. -/
theorem claim7_amended_timestamps (req : CreateReq) (i t1 t2 : Nat)
    (hp : req.projectName ≠ "") (hg : req.gitURL ≠ "") (ht : t1 ≤ t2) :
    (createBuildHandler true req (CreateDBResult.ok i) t1 t2).body.map Build.createdAt = some t1
    ∧ (createBuildHandler true req (CreateDBResult.ok i) t1 t2).body.map Build.updatedAt = some t2
    ∧ bodyTimesMonotone (createBuildHandler true req (CreateDBResult.ok i) t1 t2) = true := by
  have hcond : (req.projectName == "" || req.gitURL == "") = false := by
    simp [hp, hg]
  refine ⟨?_, ?_, ?_⟩ <;> simp [createBuildHandler, hcond, bodyTimesMonotone, ht]

/-- C7 amended witness: the scenario submission with clock reads 3 then 5. -/
theorem claim7_amended_timestamps_witness :
    (createBuildHandler true ⟨"demo", "https://x/y.git", ""⟩ (CreateDBResult.ok 1) 3 5).body.map Build.createdAt = some 3
    ∧ (createBuildHandler true ⟨"demo", "https://x/y.git", ""⟩ (CreateDBResult.ok 1) 3 5).body.map Build.updatedAt = some 5
    ∧ bodyTimesMonotone (createBuildHandler true ⟨"demo", "https://x/y.git", ""⟩ (CreateDBResult.ok 1) 3 5) = true :=
  claim7_amended_timestamps ⟨"demo", "https://x/y.git", ""⟩ 1 3 5 (by decide) (by decide) (by decide)

/-- Outcome of the `GetBuild` persistence call for a given identifier: the
record, the "build not found" error, or any other database error. -/
inductive GetBuildRes where
  | found (b : Build)
  | notFound
  | dbErr
deriving DecidableEq, Repr

/-- Accumulate a decimal digit string into its value; any non-digit character
makes the whole parse fail. -/
def digitsVal (ds : List Char) : Option Nat :=
  ds.foldl
    (fun acc? c => acc?.bind
      (fun acc => if c.isDigit then some (acc * 10 + (c.toNat - '0'.toNat)) else none))
    (some 0)

/-- Model of `strconv.Atoi`: an optional sign followed by at least one decimal
digit, anything else is an error (Go's `ErrRange` overflow is not modelled;
the identifiers involved are small). -/
def atoi (s : String) : Option Int :=
  match s.data with
  | [] => none
  | '-' :: [] => none
  | '+' :: [] => none
  | '-' :: ds => (digitsVal ds).map (fun n => -(n : Int))
  | '+' :: ds => (digitsVal ds).map (fun n => (n : Int))
  | ds => (digitsVal ds).map (fun n => (n : Int))

/-- The get-build handler.  `idStr` is the path variable (`none` when the
route variable is absent); `db` gives the `GetBuild` outcome per identifier.
Mirrors the source: missing id → 400; unparsable id → 400; "build not found"
→ 404; any other persistence error → 500; otherwise 200 with the stored
record. -/
def getBuildHandler (idStr : Option String) (db : Int → GetBuildRes) :
    Nat × Option Build :=
  match idStr with
  | none => (400, none)
  | some s =>
    match atoi s with
    | none => (400, none)
    | some n =>
      match db n with
      | GetBuildRes.found b => (200, some b)
      | GetBuildRes.notFound => (404, none)
      | GetBuildRes.dbErr => (500, none)

/-- C8 counterexample: the claim says every GET-build-by-id request is
answered with 200 or 404 and "no other response occurs".  A request whose id
path variable is not numeric ("abc") is answered 400 — even when the store
would have found a record for any identifier. -/
theorem claim8_counterexample :
    getBuildHandler (some "abc")
        (fun _ => GetBuildRes.found
          { id := 1, projectName := "demo", gitURL := "https://x/y.git"
            branch := "main", status := "queued", createdAt := 0, updatedAt := 0 })
      = (400, none)
    ∧ (400 : Nat) ≠ 200 ∧ (400 : Nat) ≠ 404 := by
  refine ⟨?_, by decide, by decide⟩
  have habc : atoi "abc" = none := by decide
  simp [getBuildHandler, habc]

/-- C8 amended: the handler answers 200 with the stored record when the id
parses and the Persistence Port finds it, 404 exactly when the port reports
"build not found", and additionally 400 when the id path variable is missing
or not an integer, and 500 when the port fails with any other error. -/
theorem claim8_amended_get_responses (db : Int → GetBuildRes) (s : String)
    (n : Int) (b : Build) :
    getBuildHandler none db = (400, none)
    ∧ (atoi s = none → getBuildHandler (some s) db = (400, none))
    ∧ (atoi s = some n → db n = GetBuildRes.found b →
        getBuildHandler (some s) db = (200, some b))
    ∧ (atoi s = some n → db n = GetBuildRes.notFound →
        getBuildHandler (some s) db = (404, none))
    ∧ (atoi s = some n → db n = GetBuildRes.dbErr →
        getBuildHandler (some s) db = (500, none)) := by
  refine ⟨rfl, ?_, ?_, ?_, ?_⟩
  · intro h
    simp [getBuildHandler, h]
  · intro h1 h2
    simp [getBuildHandler, h1, h2]
  · intro h1 h2
    simp [getBuildHandler, h1, h2]
  · intro h1 h2
    simp [getBuildHandler, h1, h2]

/-- Descending creation-time comparator used by the `ListBuilds` query
(`ORDER BY created_at DESC`): `a` may precede `b` when `a` was created no
earlier than `b`. -/
def createdDesc (a b : Build) : Bool := b.createdAt ≤ a.createdAt

/-- The `ListBuilds` persistence query: the stored records ordered by creation
time descending, limited to 100 (`ORDER BY created_at DESC LIMIT 100`). -/
def listBuilds (db : List Build) : List Build :=
  (db.mergeSort createdDesc).take 100

/-- Observable effects of one run of `listBuildsHandler`: the HTTP status,
the JSON body (the record sequence, on 200), and the metric updates it makes
(none). -/
structure ListEffects where
  httpStatus : Nat
  body : Option (List Build)
  buildsTotalIncs : List String
  gaugeIncs : Nat
  gaugeDecs : Nat
  histogramObs : List String
deriving DecidableEq, Repr

/-- The list-builds handler.  `dbOk` is whether the `ListBuilds` query
succeeded.  The second component of the result is the store after the
request: the query is read-only, so it is returned unchanged. -/
def listBuildsHandler (db : List Build) (dbOk : Bool) : ListEffects × List Build :=
  if dbOk then
    ({ httpStatus := 200, body := some (listBuilds db)
       buildsTotalIncs := [], gaugeIncs := 0, gaugeDecs := 0, histogramObs := [] }, db)
  else
    ({ httpStatus := 500, body := none
       buildsTotalIncs := [], gaugeIncs := 0, gaugeDecs := 0, histogramObs := [] }, db)

lemma createdDesc_trans (a b c : Build) :
    createdDesc a b = true → createdDesc b c = true → createdDesc a c = true := by
  simp only [createdDesc, decide_eq_true_eq]
  intro h1 h2
  exact le_trans h2 h1

lemma createdDesc_total (a b : Build) : (createdDesc a b || createdDesc b a) = true := by
  simp only [createdDesc, Bool.or_eq_true, decide_eq_true_eq]
  exact Nat.le_total b.createdAt a.createdAt

/-- C9: listing recent builds returns at most 100 records, ordered by
creation time with the most recently created first, and is a pure query: the
store is unchanged and no metric is touched. -/
theorem claim9_list_recent (db : List Build) (dbOk : Bool) :
    (listBuilds db).length ≤ 100
    ∧ List.Pairwise (fun a b => b.createdAt ≤ a.createdAt) (listBuilds db)
    ∧ (listBuildsHandler db dbOk).2 = db
    ∧ (listBuildsHandler db dbOk).1.buildsTotalIncs = []
    ∧ (listBuildsHandler db dbOk).1.gaugeIncs = 0
    ∧ (listBuildsHandler db dbOk).1.gaugeDecs = 0
    ∧ (listBuildsHandler db dbOk).1.histogramObs = [] := by
  refine ⟨?_, ?_, ?_, ?_, ?_, ?_, ?_⟩
  · exact List.length_take_le _ _
  · have hs := List.sorted_mergeSort createdDesc_trans createdDesc_total db
    have hp : List.Pairwise (fun a b => b.createdAt ≤ a.createdAt)
        (db.mergeSort createdDesc) :=
      hs.imp (fun h => by simpa [createdDesc] using h)
    exact hp.sublist (List.take_sublist _ _)
  · cases dbOk <;> rfl
  · cases dbOk <;> rfl
  · cases dbOk <;> rfl
  · cases dbOk <;> rfl
  · cases dbOk <;> rfl

/-- One row of the `UpdateBuildStatus` SQL update
(`SET status = $1, updated_at = NOW() WHERE id = $2`): a row whose id matches
gets the new status and the current time as its updated timestamp, any other
row is unchanged. -/
def updateRow (id : Nat) (st : String) (now : Nat) (b : Build) : Build :=
  if b.id == id then { b with status := st, updatedAt := now } else b

/-- The `UpdateBuildStatus` persistence operation applied to the stored table. -/
def updateBuildStatus (db : List Build) (id : Nat) (st : String) (now : Nat) :
    List Build :=
  db.map (updateRow id st now)

/-- C10: `UpdateBuildStatus(id, status)` changes only the status and updated
timestamp of rows with the given identifier (the timestamp becoming the
current time); their id, project name, git URL, branch and created timestamp
are unchanged, and every other row is entirely unchanged. -/
theorem claim10_update_status_frame (db : List Build) (id now : Nat) (st : String) :
    List.Forall₂ (fun b c =>
      c.id = b.id ∧ c.projectName = b.projectName ∧ c.gitURL = b.gitURL
      ∧ c.branch = b.branch ∧ c.createdAt = b.createdAt
      ∧ (b.id = id → c.status = st ∧ c.updatedAt = now)
      ∧ (b.id ≠ id → c = b))
      db (updateBuildStatus db id st now) := by
  induction db with
  | nil => exact List.Forall₂.nil
  | cons b tl ih =>
      refine List.Forall₂.cons ?_ ih
      unfold updateRow
      by_cases h : b.id = id
      · simp [h]
      · have hb : (b.id == id) = false := by simpa using h
        simp [hb, h]
